import Mathlib

set_option maxRecDepth 40000

/-!
Shallow embedding of `src/args.hpp` from the `tempest` repository
(WeatherFlow Tempest UDP relay): the `Arguments` command-line resolver.

The resolver consumes the event stream produced by a POSIX
`getopt_long` scan of argv (one event per matched flag, carrying the
raw option value when the flag takes one), accumulates a presence
bitmask and typed option fields, classifies the command line
(Relay / Trace / Stop / Version / Help / Empty / Invalid), and exposes
one accessor per command.  C++ exception control flow is modelled with
`Except`, where a thrown exception carries the partially mutated state
(C++ member fields keep their values at the throw point, and the
`catch` block only ORs the invalid bit in).
-/

namespace Tempest

inductive DataFormat
  | JSON
  | REST
  | ECOWITT
deriving DecidableEq

/-- Modelled from the spec: the `LogLevel` enum lives in `system.hpp`,
which is not among the provided sources; the spec describes it as an
ordered enum with 4 ranks from "errors only" to "everything", and
`args.hpp` names its constructors (`OFF`, `ERROR`, `WARN`, `INFO`,
`DEBUG`) in the `log_native` array. -/
inductive LogLevel
  | OFF
  | ERROR
  | WARN
  | INFO
  | DEBUG
deriving DecidableEq

-- Argument presence bits (the TEMPEST_ARG_* macros)

def TEMPEST_ARG_URL : Nat := 1
def TEMPEST_ARG_FORMAT : Nat := 2
def TEMPEST_ARG_INTERVAL : Nat := 4
def TEMPEST_ARG_LOG : Nat := 8
def TEMPEST_ARG_DAEMON : Nat := 16
def TEMPEST_ARG_TRACE : Nat := 32
def TEMPEST_ARG_STOP : Nat := 64
def TEMPEST_ARG_VERSION : Nat := 128
def TEMPEST_ARG_HELP : Nat := 256
def TEMPEST_ARG_EMPTY : Nat := 16384
def TEMPEST_ARG_INVALID : Nat := 32768

/-- The C bitwise complement `~m`, restricted to the 16 bits the
bitmask `cmdl_` can ever occupy (all TEMPEST_ARG_* constants are below
two to the sixteenth, and `cmdl_` only ever ORs them in). -/
def compl16 (m : Nat) : Nat := 65535 ^^^ m

-- Required-argument masks (expand to true if all required bits are present)

def TEMPEST_REQ_RELAY (c : Nat) : Bool := c &&& TEMPEST_ARG_URL == TEMPEST_ARG_URL
def TEMPEST_REQ_TRACE (c : Nat) : Bool := c &&& TEMPEST_ARG_TRACE == TEMPEST_ARG_TRACE
def TEMPEST_REQ_STOP (c : Nat) : Bool := c &&& TEMPEST_ARG_STOP == TEMPEST_ARG_STOP
def TEMPEST_REQ_VERSION (c : Nat) : Bool := c &&& TEMPEST_ARG_VERSION == TEMPEST_ARG_VERSION
def TEMPEST_REQ_HELP (c : Nat) : Bool := c &&& TEMPEST_ARG_HELP == TEMPEST_ARG_HELP

/-- `(c & (TRACE | FORMAT | INTERVAL)) == TRACE`: the trace bit is set
while neither format nor interval was supplied. -/
def TEMPEST_UDP_TRACE (c : Nat) : Bool :=
  c &&& (TEMPEST_ARG_TRACE ||| TEMPEST_ARG_FORMAT ||| TEMPEST_ARG_INTERVAL) == TEMPEST_ARG_TRACE

-- Invalid-extra-bit masks (nonzero if bits outside the allowed set are present)

def TEMPEST_INV_RELAY (c : Nat) : Nat :=
  c &&& compl16 (TEMPEST_ARG_URL ||| TEMPEST_ARG_FORMAT ||| TEMPEST_ARG_INTERVAL |||
                 TEMPEST_ARG_LOG ||| TEMPEST_ARG_DAEMON)

def TEMPEST_INV_TRACE (c : Nat) : Nat :=
  c &&& compl16 (TEMPEST_ARG_TRACE ||| TEMPEST_ARG_FORMAT ||| TEMPEST_ARG_INTERVAL |||
                 TEMPEST_ARG_LOG)

def TEMPEST_INV_STOP (c : Nat) : Nat := c &&& compl16 TEMPEST_ARG_STOP

def TEMPEST_INV_VERSION (c : Nat) : Nat := c &&& compl16 TEMPEST_ARG_VERSION

def TEMPEST_INV_HELP (c : Nat) : Nat :=
  c &&& compl16 (TEMPEST_ARG_HELP ||| TEMPEST_ARG_EMPTY)

/-- `Arguments::FormatNum2Enum`: maps 1 to `REST` and 2 to `ECOWITT`
through the `format_native` array; fails (returns `none`, i.e. C++
`false` without writing the out-parameter) outside 1..2. -/
def FormatNum2Enum (num : Int) : Option DataFormat :=
  if num < 1 ∨ num > 2 then none
  else if num = 1 then some DataFormat.REST else some DataFormat.ECOWITT

/-- `Arguments::LogNum2Enum`: maps 1..4 through the `log_native` array
(`ERROR`, `WARN`, `INFO`, `DEBUG`); fails outside 1..4. -/
def LogNum2Enum (num : Int) : Option LogLevel :=
  if num < 1 ∨ num > 4 then none
  else if num = 1 then some LogLevel.ERROR
  else if num = 2 then some LogLevel.WARN
  else if num = 3 then some LogLevel.INFO
  else some LogLevel.DEBUG

/-- ASCII whitespace recognized by the C `isspace` and by the regex
class used in `Arguments::Trim`. -/
def isSpaceChar (c : Char) : Bool :=
  c == ' ' || c == '\t' || c == '\n' || c == '\x0b' || c == '\x0c' || c == '\r'

/-- `Arguments::Trim`: a null pointer becomes the empty string; the
regex `^[=\s\t]+|[\s\t]+$` removes one leading run of `=`/whitespace
characters and one trailing run of whitespace characters. -/
def Trim (optarg : Option String) : String :=
  let str := optarg.getD ""
  let lead := str.toList.dropWhile (fun c => c == '=' || isSpaceChar c)
  String.mk ((lead.reverse.dropWhile isSpaceChar).reverse)

def digitsToNat (l : List Char) : Nat :=
  l.foldl (fun a c => a * 10 + (c.toNat - 48)) 0

/-- `std::stoi` on the trimmed value: skip leading whitespace, read an
optional sign and then the longest run of decimal digits (trailing
junk is ignored).  `none` models both `invalid_argument` (no digits)
and `out_of_range` (outside the 32-bit int range); either exception is
caught by the constructor and turns the command line invalid. -/
def stoi (s : String) : Option Int :=
  let l := s.toList.dropWhile isSpaceChar
  let signAndRest : Int × List Char :=
    match l with
    | '-' :: rest => (-1, rest)
    | '+' :: rest => (1, rest)
    | _ => (1, l)
  let ds := signAndRest.2.takeWhile (fun c => c.isDigit)
  if ds = [] then none
  else
    let v : Int := signAndRest.1 * (digitsToNat ds : Int)
    if v < -2147483648 ∨ v > 2147483647 then none else some v

/-- The mutable fields of the `Arguments` object. -/
structure ArgState where
  url_ : String
  format_ : DataFormat
  interval_ : Int
  log_ : LogLevel
  format_num_ : Int
  log_num_ : Int
  cmdl_ : Nat
deriving DecidableEq

/-- The default field values set at the top of the constructor. -/
def initState : ArgState :=
  { url_ := "", format_ := DataFormat.REST, interval_ := 1, log_ := LogLevel.INFO,
    format_num_ := 1, log_num_ := 3, cmdl_ := 0 }

/-- One event of the `getopt_long` scan: the short-option code returned
for a matched flag together with the raw `optarg` (null for
no-argument flags).  `optOther` covers every value that reaches the
`default:` label of the switch: an unknown flag, a flag missing its
required value, and a bare positional argument (returned as value 1
because the short-option string starts with a dash). -/
inductive ScanEvent
  | optU (optarg : Option String)
  | optF (optarg : Option String)
  | optI (optarg : Option String)
  | optL (optarg : Option String)
  | optD
  | optT
  | optS
  | optV
  | optH
  | optOther (optarg : Option String)
deriving DecidableEq

/-- One iteration of the scan loop: the switch over the option code.
`Except.error s` models a thrown exception with the fields as mutated
so far. -/
def processEvent (s : ArgState) (e : ScanEvent) : Except ArgState ArgState :=
  match e with
  | .optU a =>
    let arg := Trim a
    if arg = "" then .error s
    else .ok { s with url_ := arg, cmdl_ := s.cmdl_ ||| TEMPEST_ARG_URL }
  | .optF a =>
    match stoi (Trim a) with
    | none => .error s
    | some num =>
      match FormatNum2Enum num with
      | none => .error s
      | some fmt =>
        .ok { s with format_ := fmt, format_num_ := num,
                     cmdl_ := s.cmdl_ ||| TEMPEST_ARG_FORMAT }
  | .optI a =>
    match stoi (Trim a) with
    | none => .error s
    | some num =>
      if num < 1 ∨ num > 30 then .error s
      else .ok { s with interval_ := num, cmdl_ := s.cmdl_ ||| TEMPEST_ARG_INTERVAL }
  | .optL a =>
    match stoi (Trim a) with
    | none => .error s
    | some num =>
      match LogNum2Enum num with
      | none => .error s
      | some lv =>
        .ok { s with log_ := lv, log_num_ := num, cmdl_ := s.cmdl_ ||| TEMPEST_ARG_LOG }
  | .optD => .ok { s with cmdl_ := s.cmdl_ ||| TEMPEST_ARG_DAEMON }
  | .optT => .ok { s with cmdl_ := s.cmdl_ ||| TEMPEST_ARG_TRACE }
  | .optS => .ok { s with cmdl_ := s.cmdl_ ||| TEMPEST_ARG_STOP }
  | .optV => .ok { s with cmdl_ := s.cmdl_ ||| TEMPEST_ARG_VERSION }
  | .optH => .ok { s with cmdl_ := s.cmdl_ ||| TEMPEST_ARG_HELP }
  | .optOther _ => .error s

/-- The `while ((value = getopt_long(...)) != -1)` loop. -/
def scanLoop (s : ArgState) : List ScanEvent → Except ArgState ArgState
  | [] => .ok s
  | e :: rest =>
    match processEvent s e with
    | .error s1 => .error s1
    | .ok s1 => scanLoop s1 rest

/-- The semantic check after the scan loop: the if/else chain matching
the accumulated bitmask against each command, in priority order
relay, trace, stop, version, help, empty. -/
def semantics (s : ArgState) : Except ArgState ArgState :=
  if TEMPEST_REQ_RELAY s.cmdl_ then
    if TEMPEST_INV_RELAY s.cmdl_ ≠ 0 then .error s else .ok s
  else if TEMPEST_REQ_TRACE s.cmdl_ then
    if TEMPEST_INV_TRACE s.cmdl_ ≠ 0 then .error s
    else if TEMPEST_UDP_TRACE s.cmdl_ then
      .ok { s with format_ := DataFormat.JSON, interval_ := 0, format_num_ := 0 }
    else .ok s
  else if TEMPEST_REQ_STOP s.cmdl_ then
    if TEMPEST_INV_STOP s.cmdl_ ≠ 0 then .error s else .ok s
  else if TEMPEST_REQ_VERSION s.cmdl_ then
    if TEMPEST_INV_VERSION s.cmdl_ ≠ 0 then .error s else .ok s
  else if TEMPEST_REQ_HELP s.cmdl_ then
    if TEMPEST_INV_HELP s.cmdl_ ≠ 0 then .error s else .ok s
  else
    if s.cmdl_ ≠ 0 then .error s
    else .ok { s with cmdl_ := s.cmdl_ ||| TEMPEST_ARG_EMPTY }

/-- The whole `try` block of the constructor: syntax scan then
semantic check. -/
def scanSem (events : List ScanEvent) : Except ArgState ArgState :=
  match scanLoop initState events with
  | .error s => .error s
  | .ok s => semantics s

/-- `Arguments::Arguments`: on any exception the `catch` block ORs the
invalid bit into the bitmask of the partially mutated state. -/
def construct (events : List ScanEvent) : ArgState :=
  match scanSem events with
  | .ok s => s
  | .error s => { s with cmdl_ := s.cmdl_ ||| TEMPEST_ARG_INVALID }

/-- `Arguments::IsCommandLineInvalid`. -/
def IsCommandLineInvalid (s : ArgState) : Bool :=
  decide (s.cmdl_ &&& TEMPEST_ARG_INVALID ≠ 0)

/-- `Arguments::IsCommandLineEmpty`. -/
def IsCommandLineEmpty (s : ArgState) : Bool :=
  decide (s.cmdl_ &&& TEMPEST_ARG_EMPTY ≠ 0)

/-- The by-reference out-parameters of `IsCommandRelay`. -/
structure RelayOut where
  url : String
  format : DataFormat
  interval : Int
  log : LogLevel
  daemon : Bool
  str : String
deriving DecidableEq

/-- The by-reference out-parameters of `IsCommandTrace`. -/
structure TraceOut where
  format : DataFormat
  interval : Int
  log : LogLevel
  str : String
deriving DecidableEq

/-- The canonical command line rebuilt by `IsCommandRelay` from the
stored raw numeric values. -/
def relayText (s : ArgState) : String :=
  "tempest --url=" ++ s.url_ ++ " --format=" ++ toString s.format_num_ ++
  " --interval=" ++ toString s.interval_ ++ " --log=" ++ toString s.log_num_ ++
  (if s.cmdl_ &&& TEMPEST_ARG_DAEMON ≠ 0 then " --daemon" else "")

/-- `Arguments::IsCommandRelay`: takes the caller's current values of
the by-reference out-parameters and returns the boolean result paired
with their values after the call. -/
def IsCommandRelay (s : ArgState) (o : RelayOut) : Bool × RelayOut :=
  if TEMPEST_INV_RELAY s.cmdl_ ≠ 0 then (false, o)
  else
    (true,
     { url := s.url_, format := s.format_, interval := s.interval_, log := s.log_,
       daemon := decide (s.cmdl_ &&& TEMPEST_ARG_DAEMON ≠ 0), str := relayText s })

/-- The canonical command line rebuilt by `IsCommandTrace`. -/
def traceText (s : ArgState) : String :=
  "tempest --trace" ++ " --format=" ++ toString s.format_num_ ++
  " --interval=" ++ toString s.interval_ ++ " --log=" ++ toString s.log_num_

/-- `Arguments::IsCommandTrace`. -/
def IsCommandTrace (s : ArgState) (o : TraceOut) : Bool × TraceOut :=
  if TEMPEST_INV_TRACE s.cmdl_ ≠ 0 then (false, o)
  else
    (true,
     { format := s.format_, interval := s.interval_, log := s.log_, str := traceText s })

/-- `Arguments::IsCommandStop`. -/
def IsCommandStop (s : ArgState) (str : String) : Bool × String :=
  if TEMPEST_INV_STOP s.cmdl_ ≠ 0 then (false, str)
  else (true, "tempest --stop")

/-- `Arguments::IsCommandVersion`. -/
def IsCommandVersion (s : ArgState) (str : String) : Bool × String :=
  if TEMPEST_INV_VERSION s.cmdl_ ≠ 0 then (false, str)
  else (true, "tempest --version")

/-- `Arguments::IsCommandHelp`. -/
def IsCommandHelp (s : ArgState) (str : String) : Bool × String :=
  if TEMPEST_INV_HELP s.cmdl_ ≠ 0 then (false, str)
  else (true, "tempest [--help]")

/-!  Invariant infrastructure: every state reachable by the scan loop
has a bitmask below two to the ninth (only the nine genuine flag bits),
and the state produced by `construct` is either an invalid state, the
empty state, or a state whose bitmask passes exactly one command's
semantic check.  -/

/-- A bitmask that passed the semantic if/else chain without throwing:
the branch conditions of the accepting branch, in source order. -/
def validC (c : Nat) : Prop :=
  (TEMPEST_REQ_RELAY c = true ∧ TEMPEST_INV_RELAY c = 0) ∨
  (TEMPEST_REQ_RELAY c = false ∧ TEMPEST_REQ_TRACE c = true ∧ TEMPEST_INV_TRACE c = 0) ∨
  (TEMPEST_REQ_RELAY c = false ∧ TEMPEST_REQ_TRACE c = false ∧
   TEMPEST_REQ_STOP c = true ∧ TEMPEST_INV_STOP c = 0) ∨
  (TEMPEST_REQ_RELAY c = false ∧ TEMPEST_REQ_TRACE c = false ∧
   TEMPEST_REQ_STOP c = false ∧ TEMPEST_REQ_VERSION c = true ∧ TEMPEST_INV_VERSION c = 0) ∨
  (TEMPEST_REQ_RELAY c = false ∧ TEMPEST_REQ_TRACE c = false ∧
   TEMPEST_REQ_STOP c = false ∧ TEMPEST_REQ_VERSION c = false ∧
   TEMPEST_REQ_HELP c = true ∧ TEMPEST_INV_HELP c = 0)

instance (c : Nat) : Decidable (validC c) := by
  unfold validC; exact inferInstance

lemma lor_lt_512 {x y : Nat} (hx : x < 512) (hy : y < 512) : x ||| y < 512 :=
  Nat.bitwise_lt (f := or) (n := 9) hx hy

lemma processEvent_error_eq (s s1 : ArgState) (e : ScanEvent)
    (h : processEvent s e = .error s1) : s1 = s := by
  cases e <;> simp only [processEvent] at h <;> (repeat' split at h) <;> simp_all

lemma processEvent_ok_bound (s s1 : ArgState) (e : ScanEvent)
    (h : processEvent s e = .ok s1) (hb : s.cmdl_ < 512) : s1.cmdl_ < 512 := by
  have hbit : ∀ b : Nat, b < 512 → s.cmdl_ ||| b < 512 := fun b hb2 => lor_lt_512 hb hb2
  cases e <;> simp only [processEvent] at h <;> (repeat' split at h) <;>
    cases h <;> exact hbit _ (by decide)

lemma scanLoop_ok_bound (es : List ScanEvent) (s s1 : ArgState)
    (h : scanLoop s es = .ok s1) (hb : s.cmdl_ < 512) : s1.cmdl_ < 512 := by
  induction es generalizing s with
  | nil => simp only [scanLoop] at h; cases h; exact hb
  | cons e rest ih =>
    simp only [scanLoop] at h
    cases hp : processEvent s e with
    | error s2 => rw [hp] at h; cases h
    | ok s2 => rw [hp] at h; exact ih s2 h (processEvent_ok_bound s s2 e hp hb)

lemma scanLoop_error_bound (es : List ScanEvent) (s s1 : ArgState)
    (h : scanLoop s es = .error s1) (hb : s.cmdl_ < 512) : s1.cmdl_ < 512 := by
  induction es generalizing s with
  | nil => simp only [scanLoop] at h; cases h
  | cons e rest ih =>
    simp only [scanLoop] at h
    cases hp : processEvent s e with
    | error s2 =>
      rw [hp] at h; cases h
      have := processEvent_error_eq s s1 e hp
      exact this ▸ hb
    | ok s2 => rw [hp] at h; exact ih s2 h (processEvent_ok_bound s s2 e hp hb)

lemma semantics_error (s s1 : ArgState) (h : semantics s = .error s1) : s1 = s := by
  unfold semantics at h
  repeat' split at h
  all_goals simp_all

lemma semantics_ok (s s1 : ArgState) (h : semantics s = .ok s1) :
    (s.cmdl_ = 0 ∧ s1.cmdl_ = TEMPEST_ARG_EMPTY) ∨ (s1.cmdl_ = s.cmdl_ ∧ validC s.cmdl_) := by
  unfold semantics at h
  repeat' split at h
  all_goals cases h
  all_goals try (refine Or.inr ⟨rfl, ?_⟩; unfold validC; simp_all)
  all_goals
    rename_i h6
    have hc : s.cmdl_ = 0 := not_ne_iff.mp h6
    refine Or.inl ⟨hc, ?_⟩
    show s.cmdl_ ||| TEMPEST_ARG_EMPTY = TEMPEST_ARG_EMPTY
    rw [hc]; decide

lemma scanSem_error_bound (es : List ScanEvent) (s0 : ArgState)
    (h : scanSem es = .error s0) : s0.cmdl_ < 512 := by
  unfold scanSem at h
  cases hscan : scanLoop initState es with
  | error s1 =>
    rw [hscan] at h; cases h
    exact scanLoop_error_bound es initState s0 hscan (by decide)
  | ok s1 =>
    rw [hscan] at h
    have he := semantics_error s1 s0 h
    have hb := scanLoop_ok_bound es initState s1 hscan (by decide)
    exact he ▸ hb

/-- Shape of any constructed state: invalid with arbitrary partial flag
bits, empty, or a bitmask accepted by exactly one command check. -/
lemma construct_shape (es : List ScanEvent) :
    (∃ x, x < 512 ∧ (construct es).cmdl_ = x ||| TEMPEST_ARG_INVALID) ∨
    (construct es).cmdl_ = TEMPEST_ARG_EMPTY ∨
    ((construct es).cmdl_ < 512 ∧ validC (construct es).cmdl_) := by
  unfold construct
  cases hs : scanSem es with
  | error s0 =>
    refine Or.inl ⟨s0.cmdl_, scanSem_error_bound es s0 hs, rfl⟩
  | ok s1 =>
    unfold scanSem at hs
    cases hscan : scanLoop initState es with
    | error s2 => rw [hscan] at hs; cases hs
    | ok s2 =>
      rw [hscan] at hs
      have hb := scanLoop_ok_bound es initState s2 hscan (by decide)
      rcases semantics_ok s2 s1 hs with ⟨_, hemp⟩ | ⟨heq, hv⟩
      · exact Or.inr (Or.inl hemp)
      · exact Or.inr (Or.inr ⟨heq ▸ hb, heq ▸ hv⟩)

/-- In a state whose bitmask has the invalid bit ORed over partial flag
bits, every INV mask is nonzero and the invalid bit reads back. -/
lemma inv_masks_of_invalid : ∀ x, x < 512 →
    TEMPEST_INV_RELAY (x ||| TEMPEST_ARG_INVALID) ≠ 0 ∧
    TEMPEST_INV_TRACE (x ||| TEMPEST_ARG_INVALID) ≠ 0 ∧
    TEMPEST_INV_STOP (x ||| TEMPEST_ARG_INVALID) ≠ 0 ∧
    TEMPEST_INV_VERSION (x ||| TEMPEST_ARG_INVALID) ≠ 0 ∧
    TEMPEST_INV_HELP (x ||| TEMPEST_ARG_INVALID) ≠ 0 ∧
    (x ||| TEMPEST_ARG_INVALID) &&& TEMPEST_ARG_INVALID ≠ 0 := by decide

/-- Among the bitmasks that pass the semantic check, only the relay
pattern has a zero relay INV mask, and it has the url bit. -/
lemma valid_relay_req : ∀ c, c < 512 → validC c →
    TEMPEST_INV_RELAY c = 0 → TEMPEST_REQ_RELAY c = true := by decide

lemma meta_bits_of_invalid : ∀ x, x < 512 →
    (x ||| TEMPEST_ARG_INVALID).testBit 14 = false ∧
    (x ||| TEMPEST_ARG_INVALID).testBit 15 = true := by decide

lemma meta_bits_small : ∀ c, c < 512 →
    c.testBit 14 = false ∧ c.testBit 15 = false := by decide

/-!  Claim theorems.  -/

/-- Claim C1, counterexample: on the empty argument vector the resolver
classifies the command line as Empty, yet `IsCommandHelp` returns true
(the help INV mask deliberately tolerates the empty meta-bit), so it is
not the case that every one of the five command accessors returns
false. -/
theorem c1_empty_counterexample :
    IsCommandLineEmpty (construct []) = true ∧
    (IsCommandHelp (construct []) "untouched").1 = true := by decide

/-- Claim C1 as amended: for the empty argument vector the resolver
classifies the command line as Empty (`IsCommandLineEmpty` true,
`IsCommandLineInvalid` false), and the accessors `IsCommandRelay`,
`IsCommandTrace`, `IsCommandStop` and `IsCommandVersion` return false,
while `IsCommandHelp` returns true, yielding the usage string
"tempest [--help]". -/
theorem c1_empty_amended :
    IsCommandLineEmpty (construct []) = true ∧
    IsCommandLineInvalid (construct []) = false ∧
    (IsCommandRelay (construct [])
      ⟨"u0", DataFormat.REST, 1, LogLevel.INFO, false, "s0"⟩).1 = false ∧
    (IsCommandTrace (construct []) ⟨DataFormat.REST, 1, LogLevel.INFO, "s0"⟩).1 = false ∧
    (IsCommandStop (construct []) "s0").1 = false ∧
    (IsCommandVersion (construct []) "s0").1 = false ∧
    (IsCommandHelp (construct []) "s0").1 = true ∧
    (IsCommandHelp (construct []) "s0").2 = "tempest [--help]" := by decide

/-- Claim C2: whenever the scan succeeds and the resolved state takes
the trace branch (relay requirement absent, trace requirement present,
no foreign bits) with neither the format nor the interval bit set, the
trace command is resolved in raw sub-mode: format is forced to the raw
`JSON` value (raw number 0, distinct from `REST` and `ECOWITT`) and
interval is forced to the sentinel 0; and on
`tempest --trace --format=2` raw sub-mode is not triggered: the
resolved state keeps format `ECOWITT` (raw number 2) and the default
interval 1. -/
theorem c2_trace_raw_mode (es : List ScanEvent) (s1 : ArgState)
    (hok : scanLoop initState es = Except.ok s1)
    (hnr : TEMPEST_REQ_RELAY s1.cmdl_ = false)
    (hrt : TEMPEST_REQ_TRACE s1.cmdl_ = true)
    (hit : TEMPEST_INV_TRACE s1.cmdl_ = 0)
    (hudp : TEMPEST_UDP_TRACE s1.cmdl_ = true) :
    ((construct es).format_ = DataFormat.JSON ∧
     (construct es).interval_ = 0 ∧
     (construct es).format_num_ = 0 ∧
     DataFormat.JSON ≠ DataFormat.REST ∧
     DataFormat.JSON ≠ DataFormat.ECOWITT) ∧
    ((construct [ScanEvent.optT, ScanEvent.optF (some "2")]).format_ = DataFormat.ECOWITT ∧
     (construct [ScanEvent.optT, ScanEvent.optF (some "2")]).interval_ = 1 ∧
     (construct [ScanEvent.optT, ScanEvent.optF (some "2")]).format_num_ = 2 ∧
     TEMPEST_UDP_TRACE (construct [ScanEvent.optT, ScanEvent.optF (some "2")]).cmdl_ = false) := by
  constructor
  · have hsem : scanSem es =
        Except.ok { s1 with format_ := DataFormat.JSON, interval_ := 0, format_num_ := 0 } := by
      unfold scanSem
      rw [hok]
      show semantics s1 = _
      unfold semantics
      rw [hnr, hrt, hit, hudp]
      simp
    have hc : construct es =
        { s1 with format_ := DataFormat.JSON, interval_ := 0, format_num_ := 0 } := by
      unfold construct
      rw [hsem]
    rw [hc]
    exact ⟨rfl, rfl, rfl, by decide, by decide⟩
  · decide

/-- Claim C2 witness: on the bare `tempest --trace` command line the
hypotheses of the raw sub-mode rule hold and the resolved state is in
raw sub-mode. -/
theorem c2_trace_raw_mode_witness :
    (construct [ScanEvent.optT]).format_ = DataFormat.JSON ∧
    (construct [ScanEvent.optT]).interval_ = 0 ∧
    (construct [ScanEvent.optT]).format_num_ = 0 := by
  have h := c2_trace_raw_mode [ScanEvent.optT]
    { url_ := "", format_ := DataFormat.REST, interval_ := 1, log_ := LogLevel.INFO,
      format_num_ := 1, log_num_ := 3, cmdl_ := 32 }
    rfl rfl rfl rfl rfl
  exact ⟨h.1.1, h.1.2.1, h.1.2.2.1⟩

/-- Claim C3: every error cause — an exception anywhere in the scan
loop (unknown flag, missing value, non-numeric or out-of-range value)
or in the semantic check (forbidden flag combination, flag bits with no
command selector) — collapses to the single Invalid state:
`IsCommandLineInvalid` returns true, and in that state all five command
accessors return false, exposing no partial result. -/
theorem c3_invalid_collapse (es : List ScanEvent) (s0 : ArgState)
    (herr : scanSem es = Except.error s0) :
    IsCommandLineInvalid (construct es) = true ∧
    ∀ (o : RelayOut) (p : TraceOut) (t1 t2 t3 : String),
      (IsCommandRelay (construct es) o).1 = false ∧
      (IsCommandTrace (construct es) p).1 = false ∧
      (IsCommandStop (construct es) t1).1 = false ∧
      (IsCommandVersion (construct es) t2).1 = false ∧
      (IsCommandHelp (construct es) t3).1 = false := by
  have hb : s0.cmdl_ < 512 := scanSem_error_bound es s0 herr
  have hc : construct es = { s0 with cmdl_ := s0.cmdl_ ||| TEMPEST_ARG_INVALID } := by
    unfold construct
    rw [herr]
  obtain ⟨hr, ht, hs, hv, hh, hi⟩ := inv_masks_of_invalid s0.cmdl_ hb
  rw [hc]
  constructor
  · simp only [IsCommandLineInvalid, decide_eq_true_eq]
    exact hi
  · intro o p t1 t2 t3
    refine ⟨?_, ?_, ?_, ?_, ?_⟩
    · simp only [IsCommandRelay]; rw [if_pos hr]
    · simp only [IsCommandTrace]; rw [if_pos ht]
    · simp only [IsCommandStop]; rw [if_pos hs]
    · simp only [IsCommandVersion]; rw [if_pos hv]
    · simp only [IsCommandHelp]; rw [if_pos hh]

/-- Claim C3 witness: an unknown flag makes the command line invalid
and every command accessor answers false. -/
theorem c3_invalid_collapse_witness :
    IsCommandLineInvalid (construct [ScanEvent.optOther none]) = true ∧
    (IsCommandRelay (construct [ScanEvent.optOther none])
      ⟨"u0", DataFormat.REST, 1, LogLevel.INFO, false, "s0"⟩).1 = false ∧
    (IsCommandTrace (construct [ScanEvent.optOther none])
      ⟨DataFormat.REST, 1, LogLevel.INFO, "s0"⟩).1 = false ∧
    (IsCommandStop (construct [ScanEvent.optOther none]) "s0").1 = false ∧
    (IsCommandVersion (construct [ScanEvent.optOther none]) "s0").1 = false ∧
    (IsCommandHelp (construct [ScanEvent.optOther none]) "s0").1 = false := by
  have h := c3_invalid_collapse [ScanEvent.optOther none] initState rfl
  have h2 := h.2 ⟨"u0", DataFormat.REST, 1, LogLevel.INFO, false, "s0"⟩
    ⟨DataFormat.REST, 1, LogLevel.INFO, "s0"⟩ "s0" "s0" "s0"
  exact ⟨h.1, h2.1, h2.2.1, h2.2.2.1, h2.2.2.2.1, h2.2.2.2.2⟩

/-- Claim C4: for every argument vector, the relay command accessor
answers true on the constructed state iff the url presence bit is set
and no bit outside the set url, format, interval, log, daemon is set;
in particular `tempest --url=http://h --stop` is classified Invalid. -/
theorem c4_relay_iff (es : List ScanEvent) (o : RelayOut) :
    ((IsCommandRelay (construct es) o).1 = true ↔
      TEMPEST_REQ_RELAY (construct es).cmdl_ = true ∧
      TEMPEST_INV_RELAY (construct es).cmdl_ = 0) ∧
    IsCommandLineInvalid
      (construct [ScanEvent.optU (some "http://h"), ScanEvent.optS]) = true := by
  refine ⟨⟨?_, ?_⟩, by decide⟩
  · intro h
    have hinv : TEMPEST_INV_RELAY (construct es).cmdl_ = 0 := by
      by_contra hne
      rw [IsCommandRelay, if_pos hne] at h
      cases h
    refine ⟨?_, hinv⟩
    rcases construct_shape es with ⟨x, hx, hc⟩ | hc | ⟨hlt, hv⟩
    · exact absurd hinv (hc ▸ (inv_masks_of_invalid x hx).1)
    · rw [hc] at hinv
      exact absurd hinv (by decide)
    · exact valid_relay_req _ hlt hv hinv
  · rintro ⟨hreq, hinv⟩
    have hni : ¬TEMPEST_INV_RELAY (construct es).cmdl_ ≠ 0 := not_ne_iff.mpr hinv
    rw [IsCommandRelay, if_neg hni]

/-- Claim C5: numeric option values are accepted exactly on their
inclusive ranges: paired with a url so that the relay pattern matches,
`--interval` accepts 1 and 30 (storing the value) but 0 and 31 make the
command line Invalid; `--format` accepts 1 (REST) and 2 (ECOWITT) but
rejects 0 and 3; `--log` accepts 1 and 4 but rejects 0 and 5. -/
theorem c5_numeric_boundaries :
    (IsCommandLineInvalid (construct [ScanEvent.optU (some "h"), ScanEvent.optI (some "1")]) = false ∧
     (construct [ScanEvent.optU (some "h"), ScanEvent.optI (some "1")]).interval_ = 1) ∧
    (IsCommandLineInvalid (construct [ScanEvent.optU (some "h"), ScanEvent.optI (some "30")]) = false ∧
     (construct [ScanEvent.optU (some "h"), ScanEvent.optI (some "30")]).interval_ = 30) ∧
    IsCommandLineInvalid (construct [ScanEvent.optU (some "h"), ScanEvent.optI (some "0")]) = true ∧
    IsCommandLineInvalid (construct [ScanEvent.optU (some "h"), ScanEvent.optI (some "31")]) = true ∧
    (IsCommandLineInvalid (construct [ScanEvent.optU (some "h"), ScanEvent.optF (some "1")]) = false ∧
     (construct [ScanEvent.optU (some "h"), ScanEvent.optF (some "1")]).format_ = DataFormat.REST) ∧
    (IsCommandLineInvalid (construct [ScanEvent.optU (some "h"), ScanEvent.optF (some "2")]) = false ∧
     (construct [ScanEvent.optU (some "h"), ScanEvent.optF (some "2")]).format_ = DataFormat.ECOWITT) ∧
    IsCommandLineInvalid (construct [ScanEvent.optU (some "h"), ScanEvent.optF (some "0")]) = true ∧
    IsCommandLineInvalid (construct [ScanEvent.optU (some "h"), ScanEvent.optF (some "3")]) = true ∧
    (IsCommandLineInvalid (construct [ScanEvent.optU (some "h"), ScanEvent.optL (some "1")]) = false ∧
     (construct [ScanEvent.optU (some "h"), ScanEvent.optL (some "1")]).log_ = LogLevel.ERROR) ∧
    (IsCommandLineInvalid (construct [ScanEvent.optU (some "h"), ScanEvent.optL (some "4")]) = false ∧
     (construct [ScanEvent.optU (some "h"), ScanEvent.optL (some "4")]).log_ = LogLevel.DEBUG) ∧
    IsCommandLineInvalid (construct [ScanEvent.optU (some "h"), ScanEvent.optL (some "0")]) = true ∧
    IsCommandLineInvalid (construct [ScanEvent.optU (some "h"), ScanEvent.optL (some "5")]) = true := by
  decide

/-- Claim C6: on argv equivalent to
`tempest --url=http://hubitat.local:39501 --format=2 --interval=5`
the relay accessor answers true with url "http://hubitat.local:39501",
format ECOWITT, interval 5, the default log level (rank 3), daemon
false, and the canonical re-serialized string is exactly
"tempest --url=http://hubitat.local:39501 --format=2 --interval=5 --log=3"
(daemon suffix absent because the daemon bit is unset). -/
theorem c6_relay_example :
    (IsCommandRelay
      (construct [ScanEvent.optU (some "http://hubitat.local:39501"),
                  ScanEvent.optF (some "2"), ScanEvent.optI (some "5")])
      ⟨"u0", DataFormat.REST, 1, LogLevel.INFO, false, "s0"⟩) =
    (true,
     { url := "http://hubitat.local:39501", format := DataFormat.ECOWITT, interval := 5,
       log := LogLevel.INFO, daemon := false,
       str := "tempest --url=http://hubitat.local:39501 --format=2 --interval=5 --log=3" }) ∧
    (construct [ScanEvent.optU (some "http://hubitat.local:39501"),
                ScanEvent.optF (some "2"), ScanEvent.optI (some "5")]).log_num_ = 3 := by
  decide

/-- Claim C7: for every argument vector, the final presence bitmask
never has the empty meta-bit (bit 14) and the invalid meta-bit
(bit 15) set together; the empty bit is set only when no genuine flag
bit was accumulated (the bitmask is then exactly the empty bit); and
the invalid bit may co-occur with arbitrary partial flag bits, as on
`tempest --url=h --stop`, whose final mask carries the url bit (0) and
the stop bit (6) alongside the invalid bit. -/
theorem c7_meta_bits_invariant (es : List ScanEvent) :
    ((construct es).cmdl_.testBit 14 && (construct es).cmdl_.testBit 15) = false ∧
    ((construct es).cmdl_.testBit 14 = false ∨ (construct es).cmdl_ = TEMPEST_ARG_EMPTY) ∧
    ((construct [ScanEvent.optU (some "h"), ScanEvent.optS]).cmdl_.testBit 15 = true ∧
     (construct [ScanEvent.optU (some "h"), ScanEvent.optS]).cmdl_.testBit 0 = true ∧
     (construct [ScanEvent.optU (some "h"), ScanEvent.optS]).cmdl_.testBit 6 = true) := by
  refine ⟨?_, ?_, by decide⟩ <;>
    rcases construct_shape es with ⟨x, hx, hc⟩ | hc | ⟨hlt, _⟩
  · rw [hc, (meta_bits_of_invalid x hx).1]
    rfl
  · rw [hc]
    decide
  · rw [(meta_bits_small _ hlt).1]
    rfl
  · exact Or.inl (hc ▸ (meta_bits_of_invalid x hx).1)
  · exact Or.inr hc
  · exact Or.inl (meta_bits_small _ hlt).1

/-- Claim C8: resolution is deterministic: two resolvers constructed
from the same argument vector have identical resolved state, and every
accessor yields identical results and identical canonical strings on
both. -/
theorem c8_deterministic (es1 es2 : List ScanEvent) (h : es1 = es2)
    (o : RelayOut) (p : TraceOut) (t1 t2 t3 : String) :
    construct es1 = construct es2 ∧
    IsCommandLineInvalid (construct es1) = IsCommandLineInvalid (construct es2) ∧
    IsCommandLineEmpty (construct es1) = IsCommandLineEmpty (construct es2) ∧
    IsCommandRelay (construct es1) o = IsCommandRelay (construct es2) o ∧
    IsCommandTrace (construct es1) p = IsCommandTrace (construct es2) p ∧
    IsCommandStop (construct es1) t1 = IsCommandStop (construct es2) t1 ∧
    IsCommandVersion (construct es1) t2 = IsCommandVersion (construct es2) t2 ∧
    IsCommandHelp (construct es1) t3 = IsCommandHelp (construct es2) t3 := by
  subst h
  exact ⟨rfl, rfl, rfl, rfl, rfl, rfl, rfl, rfl⟩

/-- Claim C8 witness: the two constructions from the concrete vector
`tempest --version` agree on the resolved state and on the version
accessor. -/
theorem c8_deterministic_witness :
    construct [ScanEvent.optV] = construct [ScanEvent.optV] ∧
    IsCommandVersion (construct [ScanEvent.optV]) "s0" =
      IsCommandVersion (construct [ScanEvent.optV]) "s0" := by
  have h := c8_deterministic [ScanEvent.optV] [ScanEvent.optV] rfl
    ⟨"u0", DataFormat.REST, 1, LogLevel.INFO, false, "s0"⟩
    ⟨DataFormat.REST, 1, LogLevel.INFO, "s0"⟩ "s0" "s0" "s0"
  exact ⟨h.1, h.2.2.2.2.2.2.1⟩

/-- Claim C9 (implicit): a numeric option value whose trimmed text
begins with a valid integer but carries trailing non-numeric
characters, such as `--interval=5x`, is not rejected: `stoi` decodes
the integer prefix 5, the range check passes, and the command line
(here together with a url) is accepted with interval 5. -/
theorem c9_stoi_prefix :
    stoi "5x" = some 5 ∧
    IsCommandLineInvalid (construct [ScanEvent.optU (some "h"), ScanEvent.optI (some "5x")]) = false ∧
    (construct [ScanEvent.optU (some "h"), ScanEvent.optI (some "5x")]).interval_ = 5 ∧
    (IsCommandRelay (construct [ScanEvent.optU (some "h"), ScanEvent.optI (some "5x")])
      ⟨"u0", DataFormat.REST, 1, LogLevel.INFO, false, "s0"⟩).1 = true := by
  decide

/-- Claim C10 (implicit): whenever a command accessor returns false,
its by-reference out-parameters keep exactly the caller-supplied
values: nothing is written. -/
theorem c10_frame_effect (s : ArgState) (o : RelayOut) (p : TraceOut) (t1 t2 t3 : String) :
    ((IsCommandRelay s o).1 = false → (IsCommandRelay s o).2 = o) ∧
    ((IsCommandTrace s p).1 = false → (IsCommandTrace s p).2 = p) ∧
    ((IsCommandStop s t1).1 = false → (IsCommandStop s t1).2 = t1) ∧
    ((IsCommandVersion s t2).1 = false → (IsCommandVersion s t2).2 = t2) ∧
    ((IsCommandHelp s t3).1 = false → (IsCommandHelp s t3).2 = t3) := by
  refine ⟨?_, ?_, ?_, ?_, ?_⟩ <;> intro h
  · by_cases hc : TEMPEST_INV_RELAY s.cmdl_ ≠ 0
    · rw [IsCommandRelay, if_pos hc]
    · rw [IsCommandRelay, if_neg hc] at h
      cases h
  · by_cases hc : TEMPEST_INV_TRACE s.cmdl_ ≠ 0
    · rw [IsCommandTrace, if_pos hc]
    · rw [IsCommandTrace, if_neg hc] at h
      cases h
  · by_cases hc : TEMPEST_INV_STOP s.cmdl_ ≠ 0
    · rw [IsCommandStop, if_pos hc]
    · rw [IsCommandStop, if_neg hc] at h
      cases h
  · by_cases hc : TEMPEST_INV_VERSION s.cmdl_ ≠ 0
    · rw [IsCommandVersion, if_pos hc]
    · rw [IsCommandVersion, if_neg hc] at h
      cases h
  · by_cases hc : TEMPEST_INV_HELP s.cmdl_ ≠ 0
    · rw [IsCommandHelp, if_pos hc]
    · rw [IsCommandHelp, if_neg hc] at h
      cases h

/-- Claim C10 witness: on the invalid state built from an unknown flag
every accessor answers false and leaves its out-parameters at the
caller-supplied values. -/
theorem c10_frame_effect_witness :
    (IsCommandRelay (construct [ScanEvent.optOther none])
      ⟨"u0", DataFormat.REST, 1, LogLevel.INFO, false, "s0"⟩).2 =
      ⟨"u0", DataFormat.REST, 1, LogLevel.INFO, false, "s0"⟩ ∧
    (IsCommandTrace (construct [ScanEvent.optOther none])
      ⟨DataFormat.REST, 1, LogLevel.INFO, "s0"⟩).2 = ⟨DataFormat.REST, 1, LogLevel.INFO, "s0"⟩ ∧
    (IsCommandStop (construct [ScanEvent.optOther none]) "s1").2 = "s1" ∧
    (IsCommandVersion (construct [ScanEvent.optOther none]) "s2").2 = "s2" ∧
    (IsCommandHelp (construct [ScanEvent.optOther none]) "s3").2 = "s3" := by
  have h := c10_frame_effect (construct [ScanEvent.optOther none])
    ⟨"u0", DataFormat.REST, 1, LogLevel.INFO, false, "s0"⟩
    ⟨DataFormat.REST, 1, LogLevel.INFO, "s0"⟩ "s1" "s2" "s3"
  exact ⟨h.1 (by decide), h.2.1 (by decide), h.2.2.1 (by decide),
         h.2.2.2.1 (by decide), h.2.2.2.2 (by decide)⟩

end Tempest
